import Mathlib

/-!
Shallow embedding of the KMS/DRM context driver
(gfx/drivers_context/drm_ctx.c of retroarch-go2).

Modelling conventions:
* C pointers that may be NULL become `Option Nat` (a `Nat` is an opaque
  handle standing for the address returned by an external constructor).
* The preprocessor configuration (HAVE_EGL, HAVE_OPENGL, HAVE_OPENGLES,
  HAVE_VG, EGL_KHR_create_context, HAVE_SLANG, HAVE_SPIRV_CROSS) becomes an
  explicit `BuildConfig` record, so both build variants of every `#ifdef`
  are representable.
* Calls into external collaborators (the go2 library, EGL, the frontend
  driver, printf / RARCH_WARN logging) are recorded as an ordered list of
  `Effect` values; values those collaborators return are passed in as
  explicit parameters (for example the handle `go2_context_create` would
  return).
* The process-wide globals `drm_api`, `g_egl_major`, `g_egl_minor` become
  the record `drm_globals`, threaded explicitly.
-/

/-- Build-time configuration: which preprocessor symbols are defined when
the file is compiled.  `egl_khr_create_context` stands for the macro
EGL_KHR_create_context being defined by the EGL headers. -/
structure BuildConfig where
  have_egl : Bool
  have_opengl : Bool
  have_opengles : Bool
  have_vg : Bool
  egl_khr_create_context : Bool
  have_slang : Bool
  have_spirv_cross : Bool
deriving DecidableEq, Repr

/-- The `enum gfx_ctx_api` values (external header `gfx/video_defines.h`);
the driver only distinguishes OpenGL / OpenGL-ES / OpenVG from the rest. -/
inductive gfx_ctx_api where
  | GFX_CTX_NONE
  | GFX_CTX_OPENGL_API
  | GFX_CTX_OPENGL_ES_API
  | GFX_CTX_DIRECT3D8_API
  | GFX_CTX_DIRECT3D9_API
  | GFX_CTX_DIRECT3D10_API
  | GFX_CTX_DIRECT3D11_API
  | GFX_CTX_DIRECT3D12_API
  | GFX_CTX_OPENVG_API
  | GFX_CTX_VULKAN_API
  | GFX_CTX_METAL_API
deriving DecidableEq, Repr

/-- The EGL api constants passed to `egl_bind_api`. -/
inductive egl_api where
  | EGL_OPENGL_API
  | EGL_OPENGL_ES_API
  | EGL_OPENVG_API
deriving DecidableEq, Repr

/-- Rotation constants of the go2 library. -/
inductive go2_rotation where
  | GO2_ROTATION_DEGREES_0
  | GO2_ROTATION_DEGREES_90
  | GO2_ROTATION_DEGREES_180
  | GO2_ROTATION_DEGREES_270
deriving DecidableEq, Repr

/-- The `go2_context_attributes_t` record filled in by
`gfx_ctx_drm_set_video_mode` before calling `go2_context_create`. -/
structure go2_context_attributes_t where
  major : Nat
  minor : Nat
  red_bits : Nat
  green_bits : Nat
  blue_bits : Nat
  alpha_bits : Nat
  depth_bits : Nat
  stencil_bits : Nat
deriving DecidableEq, Repr

/-- One observable call into an external collaborator, in program order. -/
inductive Effect where
  | go2_context_swap_buffers_ev (ctx : Option Nat)
  | go2_context_surface_lock_ev (ctx : Option Nat) (surface : Nat)
  | go2_presenter_post_ev (presenter : Option Nat) (surface : Nat)
      (srcX srcY srcW srcH dstX dstY dstW dstH : Nat) (rotation : go2_rotation)
  | go2_context_surface_unlock_ev (ctx : Option Nat) (surface : Nat)
  | printf_unhandled_swap_buffers_ev
  | rarch_warn_swap_interval_ev
  | go2_context_destroy_ev (ctx : Nat)
  | go2_presenter_destroy_ev (presenter : Option Nat)
  | go2_display_destroy_ev (display : Option Nat)
  | install_signal_handler_ev
  | go2_context_create_ev (display : Option Nat) (width height : Nat)
      (attr : go2_context_attributes_t)
  | go2_context_make_current_ev (ctx : Option Nat)
  | gl_clear_color_buffer_ev
  | egl_bind_hw_render_ev (enable : Bool)
deriving DecidableEq, Repr

/-- The per-session state `gfx_ctx_drm_data_t` (drm_ctx.c lines 75-88).
The embedded `egl` sub-record carries no data the claims touch and is
omitted; `interval` is a C `int`, hence `Int`. -/
structure gfx_ctx_drm_data_t where
  display : Option Nat
  presenter : Option Nat
  context : Option Nat
  interval : Int
  fb_width : Nat
  fb_height : Nat
  core_hw_context_enable : Bool
deriving DecidableEq, Repr

/-- The process-wide globals of drm_ctx.c: `drm_api` (line 72) and the EGL
version globals `g_egl_major` / `g_egl_minor` (external, egl_common.c). -/
structure drm_globals where
  drm_api : gfx_ctx_api
  g_egl_major : Nat
  g_egl_minor : Nat
deriving DecidableEq, Repr

/-- `BIT32_SET(a, bit)` of retro_bits.h: `a |= UINT32_C(1) << bit`. -/
def BIT32_SET (v : Nat) (bit : Nat) : Nat := v ||| (1 <<< bit)

/-- `BIT32_GET(a, bit)` of retro_bits.h: `(a >> bit) & 1`, used as a
truth value; equivalent to testing the bit. -/
def BIT32_GET (v : Nat) (bit : Nat) : Bool := v.testBit bit

/-- Flag indices of `enum display_flags` (external header
gfx/video_driver.h); only distinctness of the indices matters here. -/
def GFX_CTX_FLAGS_GL_CORE_CONTEXT : Nat := 1

/-- Flag index of GFX_CTX_FLAGS_CUSTOMIZABLE_SWAPCHAIN_IMAGES. -/
def GFX_CTX_FLAGS_CUSTOMIZABLE_SWAPCHAIN_IMAGES : Nat := 6

/-- Flag index of GFX_CTX_FLAGS_SHADERS_GLSL. -/
def GFX_CTX_FLAGS_SHADERS_GLSL : Nat := 7

/-- Flag index of GFX_CTX_FLAGS_SHADERS_SLANG. -/
def GFX_CTX_FLAGS_SHADERS_SLANG : Nat := 10

/-- `string_is_equal` of libretro-common: false when either argument is
NULL, otherwise strcmp equality. -/
def string_is_equal (a b : Option String) : Bool :=
  match a, b with
  | some x, some y => x == y
  | _, _ => false

/-- `gfx_ctx_drm_init` (lines 150-162).  `calloc_ok` models whether
`calloc` succeeds; the two handle parameters model the values returned by
`go2_display_create()` and
`go2_presenter_create(display, DRM_FORMAT_RGB565, 0xff080808)`.  All
fields start zeroed by calloc. -/
def gfx_ctx_drm_init (calloc_ok : Bool)
    (go2_display_create_result go2_presenter_create_result : Nat) :
    Option gfx_ctx_drm_data_t :=
  if !calloc_ok then none
  else some
    { display := some go2_display_create_result
      presenter := some go2_presenter_create_result
      context := none
      interval := 0
      fb_width := 0
      fb_height := 0
      core_hw_context_enable := false }

/-- `gfx_ctx_drm_destroy` (lines 164-180).  Returns the struct as left in
memory (the function does not free it) together with the ordered external
destroy calls; NULL input returns immediately. -/
def gfx_ctx_drm_destroy (data : Option gfx_ctx_drm_data_t) :
    Option gfx_ctx_drm_data_t × List Effect :=
  match data with
  | none => (none, [])
  | some drm =>
    let (drm1, ctxEvents) :=
      match drm.context with
      | some c => ({ drm with context := none }, [Effect.go2_context_destroy_ev c])
      | none => (drm, [])
    let presEvents := [Effect.go2_presenter_destroy_ev drm1.presenter]
    let drm2 := { drm1 with presenter := none }
    let dispEvents := [Effect.go2_display_destroy_ev drm2.display]
    let drm3 := { drm2 with display := none }
    (some drm3, ctxEvents ++ presEvents ++ dispEvents)

/-- `gfx_ctx_drm_get_api` (lines 182-185): returns the global `drm_api`. -/
def gfx_ctx_drm_get_api (g : drm_globals) : gfx_ctx_api :=
  g.drm_api

/-- `gfx_ctx_drm_bind_api` (lines 187-232).  `egl_bind_api` models the
external EGL primitive and its boolean result.  The globals `drm_api`,
`g_egl_major`, `g_egl_minor` are written first, before the switch (the
EGL version globals only when HAVE_EGL is defined); the switch then
computes the return value, falling through to `return false` for
unsupported build configurations and for all other enum values. -/
def gfx_ctx_drm_bind_api (cfg : BuildConfig) (egl_bind_api : egl_api → Bool)
    (g : drm_globals) (api : gfx_ctx_api) (major minor : Nat) :
    drm_globals × Bool :=
  let g1 := { g with drm_api := api }
  let g2 := if cfg.have_egl then { g1 with g_egl_major := major, g_egl_minor := minor } else g1
  let result : Bool :=
    match api with
    | .GFX_CTX_OPENGL_API =>
      if cfg.have_egl && cfg.have_opengl then
        if !cfg.egl_khr_create_context && decide (major * 1000 + minor ≥ 3001) then
          false
        else
          egl_bind_api .EGL_OPENGL_API
      else false
    | .GFX_CTX_OPENGL_ES_API =>
      if cfg.have_egl && cfg.have_opengles then
        if !cfg.egl_khr_create_context && decide (major ≥ 3) then
          false
        else
          egl_bind_api .EGL_OPENGL_ES_API
      else false
    | .GFX_CTX_OPENVG_API =>
      if cfg.have_egl && cfg.have_vg then egl_bind_api .EGL_OPENVG_API
      else false
    | _ => false
  (g2, result)

/-- `gfx_ctx_drm_swap_interval` (lines 234-241).  The C code dereferences
`drm` without a NULL check, so the model takes the state directly; it
stores the requested interval and warns (without clamping the stored
value) when the request exceeds 1. -/
def gfx_ctx_drm_swap_interval (drm : gfx_ctx_drm_data_t) (interval : Int) :
    gfx_ctx_drm_data_t × List Effect :=
  ({ drm with interval := interval },
   if interval > 1 then [Effect.rarch_warn_swap_interval_ev] else [])

/-- `gfx_ctx_drm_set_video_mode` (lines 243-278).
`go2_context_create_result` models the handle the external
`go2_context_create` call would return.  The requested width / height /
fullscreen are ignored; the frame buffer dimensions are forced to
480 x 320 and the go2 context is created only when absent, with the fixed
attribute block (major 3, minor 2, RGBA 8888, no depth / stencil).
Result: (state as left in memory, boolean result, external calls). -/
def gfx_ctx_drm_set_video_mode (go2_context_create_result : Nat)
    (data : Option gfx_ctx_drm_data_t) (width height : Nat) (fullscreen : Bool) :
    Option gfx_ctx_drm_data_t × Bool × List Effect :=
  match data with
  | none => (none, false, [])
  | some drm =>
    let drm1 := { drm with fb_width := 480, fb_height := 320 }
    let (drm2, createEvents) :=
      if drm1.context.isNone then
        let attr : go2_context_attributes_t :=
          { major := 3, minor := 2, red_bits := 8, green_bits := 8,
            blue_bits := 8, alpha_bits := 8, depth_bits := 0, stencil_bits := 0 }
        ({ drm1 with context := some go2_context_create_result },
         [Effect.go2_context_create_ev drm1.display 480 320 attr])
      else (drm1, [])
    (some drm2, true,
     [Effect.install_signal_handler_ev] ++ createEvents ++
       [Effect.go2_context_make_current_ev drm2.context, Effect.gl_clear_color_buffer_ev])

/-- `gfx_ctx_drm_get_video_size` (lines 280-290).  Takes the current
values of the two output parameters and returns their values after the
call: unchanged when the state is NULL, otherwise the stored frame
dimensions. -/
def gfx_ctx_drm_get_video_size (data : Option gfx_ctx_drm_data_t)
    (width height : Nat) : Nat × Nat :=
  match data with
  | none => (width, height)
  | some drm => (drm.fb_width, drm.fb_height)

/-- `gfx_ctx_drm_swap_buffers` (lines 315-342).
`go2_context_surface_lock_result` models the surface handle the external
`go2_context_surface_lock` call returns for a given context.  For the
three GPU APIs (when HAVE_EGL is compiled in) the call emits the fixed
swap / lock / post / unlock sequence; every other selected API only
prints a log line.  The session state is never written. -/
def gfx_ctx_drm_swap_buffers (cfg : BuildConfig)
    (go2_context_surface_lock_result : Option Nat → Nat)
    (g : drm_globals) (drm : gfx_ctx_drm_data_t) : List Effect :=
  match g.drm_api with
  | .GFX_CTX_OPENGL_API | .GFX_CTX_OPENGL_ES_API | .GFX_CTX_OPENVG_API =>
    if cfg.have_egl then
      let surface := go2_context_surface_lock_result drm.context
      [Effect.go2_context_swap_buffers_ev drm.context,
       Effect.go2_context_surface_lock_ev drm.context surface,
       Effect.go2_presenter_post_ev drm.presenter surface
         0 0 480 320 0 0 320 480 go2_rotation.GO2_ROTATION_DEGREES_270,
       Effect.go2_context_surface_unlock_ev drm.context surface]
    else []
  | _ => [Effect.printf_unhandled_swap_buffers_ev]

/-- `gfx_ctx_drm_get_flags` (lines 344-364).  `ident` models the value of
the external `video_driver_get_ident()` (NULL possible). -/
def gfx_ctx_drm_get_flags (cfg : BuildConfig) (ident : Option String)
    (drm : gfx_ctx_drm_data_t) : Nat :=
  let flags0 := 0
  let flags1 := BIT32_SET flags0 GFX_CTX_FLAGS_CUSTOMIZABLE_SWAPCHAIN_IMAGES
  let flags2 :=
    if drm.core_hw_context_enable then BIT32_SET flags1 GFX_CTX_FLAGS_GL_CORE_CONTEXT
    else flags1
  if string_is_equal ident (some "glcore") then
    if cfg.have_slang && cfg.have_spirv_cross then
      BIT32_SET flags2 GFX_CTX_FLAGS_SHADERS_SLANG
    else flags2
  else BIT32_SET flags2 GFX_CTX_FLAGS_SHADERS_GLSL

/-- `gfx_ctx_drm_set_flags` (lines 366-371): only the GL_CORE_CONTEXT bit
is read, and it can only set (never clear) `core_hw_context_enable`. -/
def gfx_ctx_drm_set_flags (drm : gfx_ctx_drm_data_t) (flags : Nat) :
    gfx_ctx_drm_data_t :=
  if BIT32_GET flags GFX_CTX_FLAGS_GL_CORE_CONTEXT then
    { drm with core_hw_context_enable := true }
  else drm

/-- `gfx_ctx_drm_get_proc_address` (lines 132-148).
`egl_get_proc_address` models the external EGL symbol resolver (a
function pointer modelled as `Option Nat`, NULL as `none`).  Without
HAVE_EGL the GPU cases fall through to the NULL return. -/
def gfx_ctx_drm_get_proc_address (cfg : BuildConfig)
    (egl_get_proc_address : String → Option Nat) (g : drm_globals)
    (symbol : String) : Option Nat :=
  match g.drm_api with
  | .GFX_CTX_OPENGL_API | .GFX_CTX_OPENGL_ES_API | .GFX_CTX_OPENVG_API =>
    if cfg.have_egl then egl_get_proc_address symbol else none
  | _ => none

/-- `gfx_ctx_drm_bind_hw_render` (lines 373-390): dispatches on the
global `drm_api`; for the three GPU APIs (with HAVE_EGL) it calls the
external `egl_bind_hw_render`, otherwise it does nothing. -/
def gfx_ctx_drm_bind_hw_render (cfg : BuildConfig) (g : drm_globals)
    (enable : Bool) : List Effect :=
  match g.drm_api with
  | .GFX_CTX_OPENGL_API | .GFX_CTX_OPENGL_ES_API | .GFX_CTX_OPENVG_API =>
    if cfg.have_egl then [Effect.egl_bind_hw_render_ev enable] else []
  | _ => []

/-- True exactly on the surface-lock events of a trace element. -/
def isSurfaceLockEvent : Effect → Bool
  | .go2_context_surface_lock_ev _ _ => true
  | _ => false

/-- True exactly on the surface-unlock events of a trace element. -/
def isSurfaceUnlockEvent : Effect → Bool
  | .go2_context_surface_unlock_ev _ _ => true
  | _ => false

/-- Number of surface locks in a trace. -/
def countLockEvents (events : List Effect) : Nat :=
  events.countP (fun e => isSurfaceLockEvent e)

/-- Number of surface unlocks in a trace. -/
def countUnlockEvents (events : List Effect) : Nat :=
  events.countP (fun e => isSurfaceUnlockEvent e)

/-- A build configuration with every relevant symbol defined, used by
concrete witnesses. -/
def cfgFull : BuildConfig :=
  { have_egl := true, have_opengl := true, have_opengles := true,
    have_vg := true, egl_khr_create_context := true,
    have_slang := true, have_spirv_cross := true }

/-- A sample session state used by concrete witnesses. -/
def sampleDrm : gfx_ctx_drm_data_t :=
  { display := some 11, presenter := some 12, context := some 13,
    interval := 0, fb_width := 480, fb_height := 320,
    core_hw_context_enable := false }

/-- C1: with a GPU API (OpenGL, OpenGL-ES, OpenVG) selected, every
swap-buffers call performs exactly: context swap, surface lock, presenter
post with source rectangle (0,0,480,320), destination rectangle
(0,0,320,480) and rotation 270 degrees, then unlock of the same surface
(so every lock is paired with an unlock); for any other selected API the
call only logs.  The state is never written (the model returns only the
trace). -/
theorem swap_buffers_presentation_sequence (cfg : BuildConfig)
    (lockResult : Option Nat → Nat) (g : drm_globals) (drm : gfx_ctx_drm_data_t) :
    (cfg.have_egl = true →
      (g.drm_api = .GFX_CTX_OPENGL_API ∨ g.drm_api = .GFX_CTX_OPENGL_ES_API ∨
        g.drm_api = .GFX_CTX_OPENVG_API) →
      gfx_ctx_drm_swap_buffers cfg lockResult g drm =
        [Effect.go2_context_swap_buffers_ev drm.context,
         Effect.go2_context_surface_lock_ev drm.context (lockResult drm.context),
         Effect.go2_presenter_post_ev drm.presenter (lockResult drm.context)
           0 0 480 320 0 0 320 480 go2_rotation.GO2_ROTATION_DEGREES_270,
         Effect.go2_context_surface_unlock_ev drm.context (lockResult drm.context)] ∧
      countLockEvents (gfx_ctx_drm_swap_buffers cfg lockResult g drm) =
        countUnlockEvents (gfx_ctx_drm_swap_buffers cfg lockResult g drm)) ∧
    (g.drm_api ≠ .GFX_CTX_OPENGL_API → g.drm_api ≠ .GFX_CTX_OPENGL_ES_API →
      g.drm_api ≠ .GFX_CTX_OPENVG_API →
      gfx_ctx_drm_swap_buffers cfg lockResult g drm =
        [Effect.printf_unhandled_swap_buffers_ev]) := by
  constructor
  · intro hegl hapi
    rcases hapi with h | h | h <;>
      simp [gfx_ctx_drm_swap_buffers, h, hegl, countLockEvents, countUnlockEvents,
        isSurfaceLockEvent, isSurfaceUnlockEvent]
  · intro h1 h2 h3
    cases h : g.drm_api <;> simp_all [gfx_ctx_drm_swap_buffers]

/-- C1 witness: the sequence at a concrete state with OpenGL-ES selected,
and the logging no-op at a concrete state with Vulkan selected. -/
theorem swap_buffers_presentation_sequence_witness :
    gfx_ctx_drm_swap_buffers cfgFull (fun _ => 7)
        { drm_api := .GFX_CTX_OPENGL_ES_API, g_egl_major := 2, g_egl_minor := 0 }
        sampleDrm =
      [Effect.go2_context_swap_buffers_ev (some 13),
       Effect.go2_context_surface_lock_ev (some 13) 7,
       Effect.go2_presenter_post_ev (some 12) 7 0 0 480 320 0 0 320 480
         go2_rotation.GO2_ROTATION_DEGREES_270,
       Effect.go2_context_surface_unlock_ev (some 13) 7] ∧
    gfx_ctx_drm_swap_buffers cfgFull (fun _ => 7)
        { drm_api := .GFX_CTX_VULKAN_API, g_egl_major := 2, g_egl_minor := 0 }
        sampleDrm =
      [Effect.printf_unhandled_swap_buffers_ev] := by
  refine ⟨?_, ?_⟩
  · have h := (swap_buffers_presentation_sequence cfgFull (fun _ => 7)
      { drm_api := .GFX_CTX_OPENGL_ES_API, g_egl_major := 2, g_egl_minor := 0 }
      sampleDrm).1 rfl (Or.inr (Or.inl rfl))
    simpa [sampleDrm] using h.1
  · exact (swap_buffers_presentation_sequence cfgFull (fun _ => 7)
      { drm_api := .GFX_CTX_VULKAN_API, g_egl_major := 2, g_egl_minor := 0 }
      sampleDrm).2 (by decide) (by decide) (by decide)

/-- C3: destroy with a NULL state is a no-op (no external calls, no
state); destroy with a non-null state emits the destroy calls in the
strict order context (only if present), presenter, display, and leaves
all three handle fields null. -/
theorem destroy_null_noop_and_release_order :
    gfx_ctx_drm_destroy none = (none, []) ∧
    ∀ d : gfx_ctx_drm_data_t,
      (gfx_ctx_drm_destroy (some d)).1 =
        some { d with context := none, presenter := none, display := none } ∧
      (gfx_ctx_drm_destroy (some d)).2 =
        (match d.context with
         | some c => [Effect.go2_context_destroy_ev c]
         | none => []) ++
        [Effect.go2_presenter_destroy_ev d.presenter,
         Effect.go2_display_destroy_ev d.display] := by
  refine ⟨rfl, fun d => ?_⟩
  cases h : d.context <;> simp [gfx_ctx_drm_destroy, h]

/-- C5: set-video-mode returns false exactly on the NULL state; on any
non-null state it ignores the requested width and height, forces the
frame dimensions to 480 x 320, returns true, and a subsequent
get-video-size reports 480 x 320 whatever was requested. -/
theorem set_video_mode_fixed_size (newCtx w h : Nat) (f : Bool) :
    (gfx_ctx_drm_set_video_mode newCtx none w h f).2.1 = false ∧
    ∀ d : gfx_ctx_drm_data_t,
      (gfx_ctx_drm_set_video_mode newCtx (some d) w h f).2.1 = true ∧
      ((gfx_ctx_drm_set_video_mode newCtx (some d) w h f).1.map
        gfx_ctx_drm_data_t.fb_width) = some 480 ∧
      ((gfx_ctx_drm_set_video_mode newCtx (some d) w h f).1.map
        gfx_ctx_drm_data_t.fb_height) = some 320 ∧
      ∀ w0 h0 : Nat,
        gfx_ctx_drm_get_video_size
          (gfx_ctx_drm_set_video_mode newCtx (some d) w h f).1 w0 h0 = (480, 320) := by
  refine ⟨rfl, fun d => ?_⟩
  by_cases hc : d.context.isNone <;>
    simp [gfx_ctx_drm_set_video_mode, gfx_ctx_drm_get_video_size, hc]

/-- C6: swap-interval stores exactly the requested value n (even when
n > 1, where it only emits a non-fatal warning) and modifies no other
field of the state. -/
theorem swap_interval_stores_request (drm : gfx_ctx_drm_data_t) (n : Int) :
    (gfx_ctx_drm_swap_interval drm n).1.interval = n ∧
    (gfx_ctx_drm_swap_interval drm n).1.display = drm.display ∧
    (gfx_ctx_drm_swap_interval drm n).1.presenter = drm.presenter ∧
    (gfx_ctx_drm_swap_interval drm n).1.context = drm.context ∧
    (gfx_ctx_drm_swap_interval drm n).1.fb_width = drm.fb_width ∧
    (gfx_ctx_drm_swap_interval drm n).1.fb_height = drm.fb_height ∧
    (gfx_ctx_drm_swap_interval drm n).1.core_hw_context_enable =
      drm.core_hw_context_enable ∧
    (gfx_ctx_drm_swap_interval drm n).2 =
      (if n > 1 then [Effect.rarch_warn_swap_interval_ev] else []) := by
  simp [gfx_ctx_drm_swap_interval]

/-- C9: get-video-size with a NULL state leaves both outputs unmodified;
with a non-null state it writes the stored frame dimensions. -/
theorem get_video_size_outputs (w0 h0 : Nat) :
    gfx_ctx_drm_get_video_size none w0 h0 = (w0, h0) ∧
    ∀ d : gfx_ctx_drm_data_t,
      gfx_ctx_drm_get_video_size (some d) w0 h0 = (d.fb_width, d.fb_height) := by
  exact ⟨rfl, fun d => rfl⟩

/-- Initial session state produced by a successful init with handles 1
and 2, used by concrete witnesses. -/
def initState : gfx_ctx_drm_data_t :=
  { display := some 1, presenter := some 2, context := none,
    interval := 0, fb_width := 0, fb_height := 0,
    core_hw_context_enable := false }

/-- Session state after the first mode-set on `initState`, with the go2
context handle 5, used by concrete witnesses. -/
def afterModeState : gfx_ctx_drm_data_t :=
  { display := some 1, presenter := some 2, context := some 5,
    interval := 0, fb_width := 480, fb_height := 320,
    core_hw_context_enable := false }

/-- C2: the rendering-context handle is null after a successful init,
non-null after any successful set-video-mode on a live state, unchanged
(not recreated) by a second set-video-mode when already present, null
again after destroy, and untouched by swap-interval and set-flags. -/
theorem rendering_context_lifecycle :
    (∀ nd np : Nat, ∀ s : gfx_ctx_drm_data_t,
      gfx_ctx_drm_init true nd np = some s → s.context = none) ∧
    (∀ newCtx w h : Nat, ∀ f : Bool, ∀ d s2 : gfx_ctx_drm_data_t,
      (gfx_ctx_drm_set_video_mode newCtx (some d) w h f).1 = some s2 →
      s2.context.isSome = true ∧
      (d.context.isSome = true → s2.context = d.context)) ∧
    (∀ d s3 : gfx_ctx_drm_data_t,
      (gfx_ctx_drm_destroy (some d)).1 = some s3 → s3.context = none) ∧
    (∀ d : gfx_ctx_drm_data_t, ∀ n : Int,
      (gfx_ctx_drm_swap_interval d n).1.context = d.context) ∧
    (∀ d : gfx_ctx_drm_data_t, ∀ fl : Nat,
      (gfx_ctx_drm_set_flags d fl).context = d.context) := by
  refine ⟨?_, ?_, ?_, ?_, ?_⟩
  · intro nd np s hs
    simp [gfx_ctx_drm_init] at hs
    simp [← hs]
  · intro newCtx w h f d s2 hs
    cases hc : d.context <;>
      simp [gfx_ctx_drm_set_video_mode, hc] at hs <;> simp [← hs, hc]
  · intro d s3 hs
    cases hc : d.context <;>
      simp [gfx_ctx_drm_destroy, hc] at hs <;> simp [← hs]
  · intro d n
    simp [gfx_ctx_drm_swap_interval]
  · intro d fl
    by_cases hb : BIT32_GET fl GFX_CTX_FLAGS_GL_CORE_CONTEXT <;>
      simp [gfx_ctx_drm_set_flags, hb]

/-- C2 witness: the lifecycle at concrete states — null after init,
non-null after the first mode-set, preserved by a second mode-set, null
after destroy, untouched by swap-interval and set-flags. -/
theorem rendering_context_lifecycle_witness :
    initState.context = none ∧
    afterModeState.context.isSome = true ∧
    (gfx_ctx_drm_set_video_mode 9 (some afterModeState) 800 600 false).1 =
      some afterModeState ∧
    (gfx_ctx_drm_swap_interval afterModeState 2).1.context = some 5 ∧
    (gfx_ctx_drm_set_flags afterModeState 2).context = some 5 := by
  refine ⟨rendering_context_lifecycle.1 1 2 initState (by decide), ?_, ?_, ?_, ?_⟩
  · exact (rendering_context_lifecycle.2.1 5 800 600 false initState afterModeState
      (by decide)).1
  · have h := (rendering_context_lifecycle.2.1 9 800 600 false afterModeState
      afterModeState (by decide)).2 (by decide)
    decide
  · have h := rendering_context_lifecycle.2.2.2.1 afterModeState 2
    simpa [afterModeState] using h
  · have h := rendering_context_lifecycle.2.2.2.2 afterModeState 2
    simpa [afterModeState] using h

/-- Helper: the four flag bits of `gfx_ctx_drm_get_flags`, characterized
in terms of the state, the active video driver identifier and the build
configuration. -/
lemma get_flags_bits (cfg : BuildConfig) (ident : Option String)
    (drm : gfx_ctx_drm_data_t) :
    BIT32_GET (gfx_ctx_drm_get_flags cfg ident drm)
        GFX_CTX_FLAGS_CUSTOMIZABLE_SWAPCHAIN_IMAGES = true ∧
    BIT32_GET (gfx_ctx_drm_get_flags cfg ident drm)
        GFX_CTX_FLAGS_GL_CORE_CONTEXT = drm.core_hw_context_enable ∧
    BIT32_GET (gfx_ctx_drm_get_flags cfg ident drm)
        GFX_CTX_FLAGS_SHADERS_SLANG =
      (string_is_equal ident (some "glcore") && cfg.have_slang &&
        cfg.have_spirv_cross) ∧
    BIT32_GET (gfx_ctx_drm_get_flags cfg ident drm)
        GFX_CTX_FLAGS_SHADERS_GLSL = !string_is_equal ident (some "glcore") := by
  cases hcore : drm.core_hw_context_enable <;>
  cases hs : string_is_equal ident (some "glcore") <;>
  cases h1 : cfg.have_slang <;>
  cases h2 : cfg.have_spirv_cross <;>
    simp [gfx_ctx_drm_get_flags, hcore, hs, h1, h2] <;> decide

/-- C7: get-flags always reports the customizable-swapchain-images flag;
reports GL_CORE_CONTEXT exactly when the core context was requested;
reports SHADERS_SLANG exactly when the active video driver identifier is
"glcore" and both HAVE_SLANG and HAVE_SPIRV_CROSS are compiled in;
reports SHADERS_GLSL exactly when the identifier is not "glcore"; and the
two shader flags are never both reported. -/
theorem get_flags_characterization (cfg : BuildConfig) (ident : Option String)
    (drm : gfx_ctx_drm_data_t) :
    BIT32_GET (gfx_ctx_drm_get_flags cfg ident drm)
        GFX_CTX_FLAGS_CUSTOMIZABLE_SWAPCHAIN_IMAGES = true ∧
    BIT32_GET (gfx_ctx_drm_get_flags cfg ident drm)
        GFX_CTX_FLAGS_GL_CORE_CONTEXT = drm.core_hw_context_enable ∧
    BIT32_GET (gfx_ctx_drm_get_flags cfg ident drm)
        GFX_CTX_FLAGS_SHADERS_SLANG =
      (string_is_equal ident (some "glcore") && cfg.have_slang &&
        cfg.have_spirv_cross) ∧
    BIT32_GET (gfx_ctx_drm_get_flags cfg ident drm)
        GFX_CTX_FLAGS_SHADERS_GLSL = !string_is_equal ident (some "glcore") ∧
    ¬(BIT32_GET (gfx_ctx_drm_get_flags cfg ident drm)
        GFX_CTX_FLAGS_SHADERS_SLANG = true ∧
      BIT32_GET (gfx_ctx_drm_get_flags cfg ident drm)
        GFX_CTX_FLAGS_SHADERS_GLSL = true) := by
  obtain ⟨hA, hB, hC, hD⟩ := get_flags_bits cfg ident drm
  refine ⟨hA, hB, hC, hD, ?_⟩
  rintro ⟨hslang, hglsl⟩
  rw [hC] at hslang
  rw [hD] at hglsl
  cases hs : string_is_equal ident (some "glcore") <;> simp [hs] at hslang hglsl

/-- C8: set-flags with the GL_CORE_CONTEXT bit set turns on (only) the
core-context request, after which get-flags reports GL_CORE_CONTEXT;
set-flags with that bit clear changes nothing at all; and set-flags never
clears a previously set core-context request. -/
theorem set_flags_write_narrower_than_read (cfg : BuildConfig)
    (ident : Option String) (drm : gfx_ctx_drm_data_t) (flags : Nat) :
    (BIT32_GET flags GFX_CTX_FLAGS_GL_CORE_CONTEXT = true →
      gfx_ctx_drm_set_flags drm flags =
        { drm with core_hw_context_enable := true } ∧
      BIT32_GET (gfx_ctx_drm_get_flags cfg ident (gfx_ctx_drm_set_flags drm flags))
        GFX_CTX_FLAGS_GL_CORE_CONTEXT = true) ∧
    (BIT32_GET flags GFX_CTX_FLAGS_GL_CORE_CONTEXT = false →
      gfx_ctx_drm_set_flags drm flags = drm) ∧
    (drm.core_hw_context_enable = true →
      (gfx_ctx_drm_set_flags drm flags).core_hw_context_enable = true) := by
  refine ⟨fun hbit => ?_, fun hbit => ?_, fun hcore => ?_⟩
  · have hset : gfx_ctx_drm_set_flags drm flags =
        { drm with core_hw_context_enable := true } := by
      simp [gfx_ctx_drm_set_flags, hbit]
    refine ⟨hset, ?_⟩
    rw [hset]
    exact (get_flags_bits cfg ident
      { drm with core_hw_context_enable := true }).2.1
  · simp [gfx_ctx_drm_set_flags, hbit]
  · by_cases hbit : BIT32_GET flags GFX_CTX_FLAGS_GL_CORE_CONTEXT <;>
      simp [gfx_ctx_drm_set_flags, hbit, hcore]

/-- C8 witness: the two write branches at concrete inputs — flag word 2
(bit 1 set) turns the request on and makes get-flags report it; flag word
0 leaves the state untouched; a set request survives a write of 0. -/
theorem set_flags_write_narrower_than_read_witness :
    gfx_ctx_drm_set_flags sampleDrm 2 =
      { sampleDrm with core_hw_context_enable := true } ∧
    BIT32_GET (gfx_ctx_drm_get_flags cfgFull (some "gl")
        (gfx_ctx_drm_set_flags sampleDrm 2)) GFX_CTX_FLAGS_GL_CORE_CONTEXT = true ∧
    gfx_ctx_drm_set_flags sampleDrm 0 = sampleDrm ∧
    (gfx_ctx_drm_set_flags
      { sampleDrm with core_hw_context_enable := true } 0).core_hw_context_enable
      = true := by
  refine ⟨?_, ?_, ?_, ?_⟩
  · exact ((set_flags_write_narrower_than_read cfgFull (some "gl")
      sampleDrm 2).1 (by decide)).1
  · exact ((set_flags_write_narrower_than_read cfgFull (some "gl")
      sampleDrm 2).1 (by decide)).2
  · exact (set_flags_write_narrower_than_read cfgFull (some "gl")
      sampleDrm 0).2.1 (by decide)
  · exact (set_flags_write_narrower_than_read cfgFull (some "gl")
      { sampleDrm with core_hw_context_enable := true } 0).2.2 rfl

/-- The full build configuration with EGL_KHR_create_context undefined,
used by concrete witnesses. -/
def cfgNoKhr : BuildConfig :=
  { have_egl := true, have_opengl := true, have_opengles := true,
    have_vg := true, egl_khr_create_context := false,
    have_slang := true, have_spirv_cross := true }

/-- Initial value of the process-wide globals (`drm_api = GFX_CTX_NONE`),
used by concrete witnesses. -/
def g0 : drm_globals :=
  { drm_api := .GFX_CTX_NONE, g_egl_major := 0, g_egl_minor := 0 }

/-- C4: bind-api validation — with OpenGL support compiled in, an OpenGL
request is rejected exactly when EGL_KHR_create_context is unavailable
and major*1000+minor >= 3001, otherwise the EGL primitive decides; with
OpenGL-ES support compiled in, the request is rejected exactly when the
extension is unavailable and major >= 3, otherwise the primitive decides;
OpenVG has no version gate; and any API whose support is not compiled in,
as well as None and every other API, yields false. -/
theorem bind_api_validation (cfg : BuildConfig) (eglBind : egl_api → Bool)
    (g : drm_globals) (major minor : Nat) :
    (cfg.have_egl = true → cfg.have_opengl = true →
      (gfx_ctx_drm_bind_api cfg eglBind g .GFX_CTX_OPENGL_API major minor).2 =
        (if !cfg.egl_khr_create_context && decide (major * 1000 + minor ≥ 3001)
         then false else eglBind .EGL_OPENGL_API)) ∧
    (cfg.have_egl = true → cfg.have_opengles = true →
      (gfx_ctx_drm_bind_api cfg eglBind g .GFX_CTX_OPENGL_ES_API major minor).2 =
        (if !cfg.egl_khr_create_context && decide (major ≥ 3)
         then false else eglBind .EGL_OPENGL_ES_API)) ∧
    (cfg.have_egl = true → cfg.have_vg = true →
      (gfx_ctx_drm_bind_api cfg eglBind g .GFX_CTX_OPENVG_API major minor).2 =
        eglBind .EGL_OPENVG_API) ∧
    ((cfg.have_egl && cfg.have_opengl) = false →
      (gfx_ctx_drm_bind_api cfg eglBind g .GFX_CTX_OPENGL_API major minor).2 =
        false) ∧
    ((cfg.have_egl && cfg.have_opengles) = false →
      (gfx_ctx_drm_bind_api cfg eglBind g .GFX_CTX_OPENGL_ES_API major minor).2 =
        false) ∧
    ((cfg.have_egl && cfg.have_vg) = false →
      (gfx_ctx_drm_bind_api cfg eglBind g .GFX_CTX_OPENVG_API major minor).2 =
        false) ∧
    (∀ api : gfx_ctx_api, api ≠ .GFX_CTX_OPENGL_API →
      api ≠ .GFX_CTX_OPENGL_ES_API → api ≠ .GFX_CTX_OPENVG_API →
      (gfx_ctx_drm_bind_api cfg eglBind g api major minor).2 = false) := by
  refine ⟨fun h1 h2 => ?_, fun h1 h2 => ?_, fun h1 h2 => ?_,
    fun h => ?_, fun h => ?_, fun h => ?_, fun api ha hb hc => ?_⟩
  · simp [gfx_ctx_drm_bind_api, h1, h2]
  · simp [gfx_ctx_drm_bind_api, h1, h2]
  · simp [gfx_ctx_drm_bind_api, h1, h2]
  · simp [gfx_ctx_drm_bind_api, h]
  · simp [gfx_ctx_drm_bind_api, h]
  · simp [gfx_ctx_drm_bind_api, h]
  · cases api <;> simp_all [gfx_ctx_drm_bind_api]

/-- C4 witness: the spec test pair for OpenGL-ES 3.0 — rejected when
EGL_KHR_create_context is unavailable, accepted (primitive result) when
it is available — plus the unconditional false for Vulkan. -/
theorem bind_api_validation_witness :
    (gfx_ctx_drm_bind_api cfgNoKhr (fun _ => true) g0
      .GFX_CTX_OPENGL_ES_API 3 0).2 = false ∧
    (gfx_ctx_drm_bind_api cfgFull (fun _ => true) g0
      .GFX_CTX_OPENGL_ES_API 3 0).2 = true ∧
    (gfx_ctx_drm_bind_api cfgFull (fun _ => true) g0
      .GFX_CTX_VULKAN_API 3 0).2 = false := by
  refine ⟨?_, ?_, ?_⟩
  · have h := (bind_api_validation cfgNoKhr (fun _ => true) g0 3 0).2.1 rfl rfl
    simpa [cfgNoKhr] using h
  · have h := (bind_api_validation cfgFull (fun _ => true) g0 3 0).2.1 rfl rfl
    simpa [cfgFull] using h
  · exact (bind_api_validation cfgFull (fun _ => true) g0 3 0).2.2.2.2.2.2
      .GFX_CTX_VULKAN_API (by decide) (by decide) (by decide)

/-- C10: bind-api writes the requested API into the process-wide
`drm_api` unconditionally, before and independently of validation, even
on calls that return false, and (in an EGL build, where the version
globals exist) records major/minor in `g_egl_major` / `g_egl_minor` just
as unconditionally; afterwards get-api returns that API, and the
API-dispatching operations (proc-address lookup, swap-buffers,
hardware-render binding) behave as if the global had simply been set to
the rejected API. -/
theorem bind_api_sets_global_unconditionally (cfg : BuildConfig)
    (eglBind : egl_api → Bool) (eglGetProc : String → Option Nat)
    (lockResult : Option Nat → Nat) (g : drm_globals) (api : gfx_ctx_api)
    (major minor : Nat) (symbol : String) (drm : gfx_ctx_drm_data_t)
    (enable : Bool) :
    (gfx_ctx_drm_bind_api cfg eglBind g api major minor).1.drm_api = api ∧
    (cfg.have_egl = true →
      (gfx_ctx_drm_bind_api cfg eglBind g api major minor).1.g_egl_major =
        major ∧
      (gfx_ctx_drm_bind_api cfg eglBind g api major minor).1.g_egl_minor =
        minor) ∧
    (cfg.have_egl = false →
      (gfx_ctx_drm_bind_api cfg eglBind g api major minor).1.g_egl_major =
        g.g_egl_major ∧
      (gfx_ctx_drm_bind_api cfg eglBind g api major minor).1.g_egl_minor =
        g.g_egl_minor) ∧
    gfx_ctx_drm_get_api (gfx_ctx_drm_bind_api cfg eglBind g api major minor).1 =
      api ∧
    gfx_ctx_drm_get_proc_address cfg eglGetProc
        (gfx_ctx_drm_bind_api cfg eglBind g api major minor).1 symbol =
      gfx_ctx_drm_get_proc_address cfg eglGetProc { g with drm_api := api }
        symbol ∧
    gfx_ctx_drm_swap_buffers cfg lockResult
        (gfx_ctx_drm_bind_api cfg eglBind g api major minor).1 drm =
      gfx_ctx_drm_swap_buffers cfg lockResult { g with drm_api := api } drm ∧
    gfx_ctx_drm_bind_hw_render cfg
        (gfx_ctx_drm_bind_api cfg eglBind g api major minor).1 enable =
      gfx_ctx_drm_bind_hw_render cfg { g with drm_api := api } enable := by
  have hset : (gfx_ctx_drm_bind_api cfg eglBind g api major minor).1.drm_api =
      api := by
    cases hegl : cfg.have_egl <;> simp [gfx_ctx_drm_bind_api, hegl]
  refine ⟨hset, fun hegl => ?_, fun hegl => ?_, hset, ?_, ?_, ?_⟩
  · simp [gfx_ctx_drm_bind_api, hegl]
  · simp [gfx_ctx_drm_bind_api, hegl]
  all_goals
    cases hegl : cfg.have_egl <;>
      simp [gfx_ctx_drm_bind_api, gfx_ctx_drm_get_proc_address,
        gfx_ctx_drm_swap_buffers, gfx_ctx_drm_bind_hw_render, hegl]

/-- C10 witness: a failing bind at a concrete input (OpenGL-ES 3.0 with
EGL_KHR_create_context unavailable, so the call returns false) still
records the rejected API and the requested 3.0 version in the globals,
and get-api reports the rejected API; plus the untouched-globals branch
of a build without EGL. -/
theorem bind_api_sets_global_unconditionally_witness :
    (gfx_ctx_drm_bind_api cfgNoKhr (fun _ => true) g0
      .GFX_CTX_OPENGL_ES_API 3 0).2 = false ∧
    (gfx_ctx_drm_bind_api cfgNoKhr (fun _ => true) g0
      .GFX_CTX_OPENGL_ES_API 3 0).1.drm_api = .GFX_CTX_OPENGL_ES_API ∧
    (gfx_ctx_drm_bind_api cfgNoKhr (fun _ => true) g0
      .GFX_CTX_OPENGL_ES_API 3 0).1.g_egl_major = 3 ∧
    (gfx_ctx_drm_bind_api cfgNoKhr (fun _ => true) g0
      .GFX_CTX_OPENGL_ES_API 3 0).1.g_egl_minor = 0 ∧
    gfx_ctx_drm_get_api (gfx_ctx_drm_bind_api cfgNoKhr (fun _ => true) g0
      .GFX_CTX_OPENGL_ES_API 3 0).1 = .GFX_CTX_OPENGL_ES_API ∧
    (gfx_ctx_drm_bind_api { cfgNoKhr with have_egl := false } (fun _ => true)
      { g0 with g_egl_major := 9, g_egl_minor := 8 }
      .GFX_CTX_OPENGL_ES_API 3 0).1.g_egl_major = 9 := by
  have h := bind_api_sets_global_unconditionally cfgNoKhr (fun _ => true)
    (fun _ => none) (fun _ => 0) g0 .GFX_CTX_OPENGL_ES_API 3 0 "q" sampleDrm
    true
  have hn := bind_api_sets_global_unconditionally
    { cfgNoKhr with have_egl := false } (fun _ => true) (fun _ => none)
    (fun _ => 0) { g0 with g_egl_major := 9, g_egl_minor := 8 }
    .GFX_CTX_OPENGL_ES_API 3 0 "q" sampleDrm true
  exact ⟨by decide, h.1, (h.2.1 rfl).1, (h.2.1 rfl).2, h.2.2.2.1,
    (hn.2.2.1 rfl).1⟩
